import Mathlib

/-!
Verification of the `AuthRegistry` Sign-In-with-Ethereum contract
(`contracts/.../AuthRegistry.sol`): a shallow embedding of the
`authenticate` entry point, its replay ledger, and theorems about its
timing gate, check ordering, replay protection and signature stage.

Solidity `require` semantics are modelled faithfully: any failed check
reverts the whole call, so the returned state equals the input state on
every rejection; the ledger is written only on full success.
-/

namespace AuthRegistry

/-- Byte strings are lists of naturals (each intended below 256). -/
abbrev Bytes := List Nat

/-- The `SiweMessage` struct of `AuthRegistry.sol`, field for field:
`domain`, `address_`, `statement`, `uri` (strings / address), `chainId`,
`nonce` (bytes32), `issuedAt`, `expiresAt` (uint256 timestamps).
Numeric and fixed-size fields are naturals; strings are byte lists. -/
structure SiweMessage where
  domain : Bytes
  address_ : Nat
  statement : Bytes
  uri : Bytes
  chainId : Nat
  nonce : Nat
  issuedAt : Nat
  expiresAt : Nat
deriving DecidableEq

/-- `uint256 public constant MESSAGE_TIMEOUT = 5 minutes;` — Solidity
`5 minutes` is 300 seconds. -/
def MESSAGE_TIMEOUT : Nat := 5 * 60

/-- Modelled from the spec: the external cryptographic primitives the
contract calls but that live outside this repository — the EVM `keccak256`
builtin (\"a fixed-output cryptographic hash function (32-byte output)\")
and elliptic-curve public-key recovery as wrapped by the OpenZeppelin
`ECDSA` library (\"recovers the signing account from a signature over a
digest\"; it fails on a malformed signature). `ecrecover digest sig = none`
models the library reverting with its own invalid-signature error;
`some a` models successful recovery of account `a`. -/
structure CryptoEnv where
  keccak256 : Bytes → Nat
  keccak256_lt : ∀ bs, keccak256 bs < 2 ^ 256
  ecrecover : Nat → Bytes → Option Nat

/-- Modelled from the spec: a 32-byte big-endian word, as `abi.encode`
lays out a `uint256` / `address` / `bytes32` value. -/
def wordBytes (w : Nat) : Bytes :=
  (List.range 32).map (fun i => w / 256 ^ (31 - i) % 256)

/-- Modelled from the spec: a dynamic string field is encoded
length-first, then its bytes. -/
def stringBytes (s : Bytes) : Bytes :=
  wordBytes s.length ++ s

/-- Modelled from the spec: the ordered-field encoding
`abi.encode(message.domain, message.address_, message.statement,
message.uri, message.chainId, message.nonce, message.issuedAt,
message.expiresAt)` — the eight fields encoded in exactly that order and
concatenated. A pure, total function with no error path. -/
def encodeSiwe (m : SiweMessage) : Bytes :=
  stringBytes m.domain ++
  wordBytes m.address_ ++
  stringBytes m.statement ++
  stringBytes m.uri ++
  wordBytes m.chainId ++
  wordBytes m.nonce ++
  wordBytes m.issuedAt ++
  wordBytes m.expiresAt

/-- `bytes32 messageHash = keccak256(abi.encode(...));` — the content
identifier of a message. -/
def contentId (env : CryptoEnv) (m : SiweMessage) : Nat :=
  env.keccak256 (encodeSiwe m)

/-- The ASCII bytes of the personal-message header
`"\x19Ethereum Signed Message:\n32"` used in
`abi.encodePacked("\x19Ethereum Signed Message:\n32", messageHash)`. -/
def personalMessageHeader : Bytes :=
  "\x19Ethereum Signed Message:\n32".toList.map Char.toNat

/-- `bytes32 ethSignedMessageHash = keccak256(abi.encodePacked(
"\x19Ethereum Signed Message:\n32", messageHash));` -/
def ethSignedMessageHash (env : CryptoEnv) (id : Nat) : Nat :=
  env.keccak256 (personalMessageHeader ++ wordBytes id)

/-- The distinct revert reasons `authenticate` can surface, one per
`require` string, plus the two failure channels that do not come from a
`require` of `authenticate` itself: `arithmeticUnderflow` is the
Solidity 0.8 checked-subtraction panic (0x11) that
`message.expiresAt - message.issuedAt` would raise on underflow, and
`ecdsaInvalidSignature` is the OpenZeppelin `ECDSA.recover` library's
own revert on a malformed signature. -/
inductive RevertReason where
  /-- `"Message not yet valid"` -/
  | messageNotYetValid
  /-- `"Message expired"` -/
  | messageExpired
  /-- Panic(0x11): checked subtraction underflow -/
  | arithmeticUnderflow
  /-- `"Expiry too long"` -/
  | expiryTooLong
  /-- `"Invalid chain"` -/
  | invalidChain
  /-- `"Message already used"` -/
  | messageAlreadyUsed
  /-- the `ECDSA` library's own invalid-signature revert -/
  | ecdsaInvalidSignature
  /-- `"Invalid signature"` -/
  | invalidSignature
deriving DecidableEq

/-- Outcome of a call to `authenticate`: either the successful return
(`return true`, after the `AuthSuccess` event) or a revert with one of
the reasons above. -/
inductive TxResult where
  | accepted
  | reverted (reason : RevertReason)
deriving DecidableEq

/-- `mapping(bytes32 => bool) public usedMessages` — the set of consumed
content identifiers, as the list of keys mapped to `true`. -/
abbrev Ledger := List Nat

/-- Reading the `usedMessages` mapping at a key. -/
def usedMessages (st : Ledger) (h : Nat) : Bool :=
  st.contains h

/-- `function isMessageUsed(bytes32 messageHash) external view returns (bool)`
— a read-only passthrough to `usedMessages`. -/
def isMessageUsed (st : Ledger) (messageHash : Nat) : Bool :=
  usedMessages st messageHash

/-- Solidity 0.8 checked subtraction on `uint256`: `none` is the
arithmetic-underflow panic branch. -/
def checkedSub (a b : Nat) : Option Nat :=
  if b ≤ a then some (a - b) else none

/-- `function authenticate(SiweMessage calldata message, bytes calldata
signature) external returns (bool)`, with the execution context made
explicit: `now` is `block.timestamp`, `chainid` is `block.chainid`,
`caller` is `msg.sender` (available to any external function, though this
body never reads it), `st` the current `usedMessages` storage. The
`require`s appear in source order; a failed check reverts, returning the
unchanged state. On success the message hash is marked used. -/
def authenticate (env : CryptoEnv) (now chainid caller : Nat) (st : Ledger)
    (message : SiweMessage) (signature : Bytes) : TxResult × Ledger :=
  if now < message.issuedAt then (.reverted .messageNotYetValid, st)
  else if message.expiresAt < now then (.reverted .messageExpired, st)
  else
    match checkedSub message.expiresAt message.issuedAt with
    | none => (.reverted .arithmeticUnderflow, st)
    | some window =>
      if MESSAGE_TIMEOUT < window then (.reverted .expiryTooLong, st)
      else if chainid ≠ message.chainId then (.reverted .invalidChain, st)
      else if usedMessages st (contentId env message) then (.reverted .messageAlreadyUsed, st)
      else
        match env.ecrecover (ethSignedMessageHash env (contentId env message)) signature with
        | none => (.reverted .ecdsaInvalidSignature, st)
        | some signer =>
          if signer ≠ message.address_ then (.reverted .invalidSignature, st)
          else (.accepted, contentId env message :: st)

/-- A stand-in hash for concrete evaluations: the byte-string length
reduced mod `2 ^ 256`. Any function of the right type exercises the
engine's control flow, which never inspects digest values. -/
def testKeccak : Bytes → Nat := fun bs => bs.length % 2 ^ 256

/-- Concrete environment whose recovery always yields account 7. -/
def envOk : CryptoEnv :=
  ⟨testKeccak, fun _ => Nat.mod_lt _ (by positivity), fun _ _ => some 7⟩

/-- Concrete environment whose recovery always fails (malformed
signature: the `ECDSA` library reverts). -/
def envNone : CryptoEnv :=
  ⟨testKeccak, fun _ => Nat.mod_lt _ (by positivity), fun _ _ => none⟩

/-- Concrete environment whose recovery always yields account 1 — a
signature made by a different key than the claimed account 7. -/
def envWrong : CryptoEnv :=
  ⟨testKeccak, fun _ => Nat.mod_lt _ (by positivity), fun _ _ => some 1⟩

/-- A concrete message: claimed account 7, chain 5, nonce 42, valid from
time 900 to 1100 (window 200, below the 300-second limit). -/
def msg1 : SiweMessage := ⟨[100], 7, [115], [117], 5, 42, 900, 1100⟩

/-- The checked subtraction takes its non-panic branch when no underflow
can occur. -/
theorem checkedSub_of_le {a b : Nat} (h : b ≤ a) : checkedSub a b = some (a - b) := by
  simp [checkedSub, h]

/-- The first component of `authenticate` as one closed formula: the
underflow branch of the checked subtraction disappears, because whenever
the first two checks pass `issuedAt ≤ expiresAt` holds. -/
theorem authenticate_fst_eq (env : CryptoEnv) (now chainid caller : Nat)
    (st : Ledger) (m : SiweMessage) (sig : Bytes) :
    (authenticate env now chainid caller st m sig).1 =
      if now < m.issuedAt then .reverted .messageNotYetValid
      else if m.expiresAt < now then .reverted .messageExpired
      else if MESSAGE_TIMEOUT < m.expiresAt - m.issuedAt then .reverted .expiryTooLong
      else if chainid ≠ m.chainId then .reverted .invalidChain
      else if usedMessages st (contentId env m) then .reverted .messageAlreadyUsed
      else
        match env.ecrecover (ethSignedMessageHash env (contentId env m)) sig with
        | none => .reverted .ecdsaInvalidSignature
        | some signer =>
          if signer ≠ m.address_ then .reverted .invalidSignature else .accepted := by
  by_cases h1 : now < m.issuedAt
  · simp [authenticate, h1]
  · by_cases h2 : m.expiresAt < now
    · simp [authenticate, h1, h2]
    · have hle : m.issuedAt ≤ m.expiresAt :=
        le_trans (Nat.not_lt.mp h1) (Nat.not_lt.mp h2)
      simp only [authenticate, if_neg h1, if_neg h2, checkedSub_of_le hle]
      repeat' split
      all_goals simp_all

/-- The second component of `authenticate`: the ledger is extended with
the message's content identifier exactly when the call is accepted, and
is unchanged on every revert. -/
theorem authenticate_snd_eq (env : CryptoEnv) (now chainid caller : Nat)
    (st : Ledger) (m : SiweMessage) (sig : Bytes) :
    (authenticate env now chainid caller st m sig).2 =
      if (authenticate env now chainid caller st m sig).1 = .accepted
      then contentId env m :: st else st := by
  by_cases h1 : now < m.issuedAt
  · simp [authenticate, h1]
  · by_cases h2 : m.expiresAt < now
    · simp [authenticate, h1, h2]
    · have hle : m.issuedAt ≤ m.expiresAt :=
        le_trans (Nat.not_lt.mp h1) (Nat.not_lt.mp h2)
      simp only [authenticate, if_neg h1, if_neg h2, checkedSub_of_le hle]
      repeat' split
      all_goals simp_all

/-- A call whose first component is a revert returns the input ledger
unchanged: revert semantics roll back all state. -/
theorem authenticate_eq_of_fst_reverted {env : CryptoEnv}
    {now chainid caller : Nat} {st : Ledger} {m : SiweMessage} {sig : Bytes}
    {r : RevertReason}
    (h : (authenticate env now chainid caller st m sig).1 = .reverted r) :
    authenticate env now chainid caller st m sig = (.reverted r, st) := by
  have h2 := authenticate_snd_eq env now chainid caller st m sig
  rw [h] at h2
  simp only [reduceCtorEq, if_false] at h2
  calc authenticate env now chainid caller st m sig
      = ((authenticate env now chainid caller st m sig).1,
         (authenticate env now chainid caller st m sig).2) := rfl
    _ = (.reverted r, st) := by rw [h, h2]

/-- C1: a message that satisfies the timing checks, is bound to the
current network, and carries a signature recovering to its claimed
account is accepted on first submission; the identical resubmission is
rejected as a replay; and the consumed flag of its content identifier is
true after — and only after — the first call. -/
theorem c1_accept_once_then_replay (env : CryptoEnv) (now chainid caller : Nat)
    (st : Ledger) (m : SiweMessage) (sig : Bytes)
    (h1 : m.issuedAt ≤ now) (h2 : now ≤ m.expiresAt)
    (h3 : m.expiresAt - m.issuedAt ≤ MESSAGE_TIMEOUT)
    (h4 : chainid = m.chainId)
    (h5 : env.ecrecover (ethSignedMessageHash env (contentId env m)) sig = some m.address_)
    (h6 : isMessageUsed st (contentId env m) = false) :
    (authenticate env now chainid caller st m sig).1 = .accepted ∧
    isMessageUsed st (contentId env m) = false ∧
    isMessageUsed (authenticate env now chainid caller st m sig).2 (contentId env m) = true ∧
    (authenticate env now chainid caller
        (authenticate env now chainid caller st m sig).2 m sig).1
      = .reverted .messageAlreadyUsed := by
  simp only [isMessageUsed] at h6
  have hfst : (authenticate env now chainid caller st m sig).1 = .accepted := by
    rw [authenticate_fst_eq]
    simp [Nat.not_lt.mpr h1, Nat.not_lt.mpr h2, Nat.not_lt.mpr h3, h4, h6, h5]
  have hsnd : (authenticate env now chainid caller st m sig).2 = contentId env m :: st := by
    rw [authenticate_snd_eq, if_pos hfst]
  refine ⟨hfst, by simpa [isMessageUsed] using h6, ?_, ?_⟩
  · rw [hsnd]
    simp [isMessageUsed, usedMessages, List.contains_cons]
  · rw [hsnd, authenticate_fst_eq]
    simp [Nat.not_lt.mpr h1, Nat.not_lt.mpr h2, Nat.not_lt.mpr h3, h4,
      usedMessages, List.contains_cons]

/-- C1 witness: the concrete message `msg1` at time 1000 on chain 5
against the empty ledger. -/
theorem c1_accept_once_then_replay_witness :
    (authenticate envOk 1000 5 0 [] msg1 []).1 = .accepted ∧
    isMessageUsed [] (contentId envOk msg1) = false ∧
    isMessageUsed (authenticate envOk 1000 5 0 [] msg1 []).2 (contentId envOk msg1) = true ∧
    (authenticate envOk 1000 5 0 (authenticate envOk 1000 5 0 [] msg1 []).2 msg1 []).1
      = .reverted .messageAlreadyUsed :=
  c1_accept_once_then_replay envOk 1000 5 0 [] msg1 []
    (by decide) (by decide) (by decide) rfl (by decide) (by decide)

/-- C3: any rejected call leaves the ledger exactly as it was, and
resubmitting the same message against the resulting state under the same
clock and network yields the identical rejection again. -/
theorem c3_rejection_idempotent (env : CryptoEnv) (now chainid caller : Nat)
    (st : Ledger) (m : SiweMessage) (sig : Bytes) (r : RevertReason)
    (h : (authenticate env now chainid caller st m sig).1 = .reverted r) :
    authenticate env now chainid caller st m sig = (.reverted r, st) ∧
    (authenticate env now chainid caller
        (authenticate env now chainid caller st m sig).2 m sig)
      = (.reverted r, st) := by
  have he := authenticate_eq_of_fst_reverted h
  refine ⟨he, ?_⟩
  rw [he]
  exact he

/-- C3 witness: the concrete message `msg1` submitted at time 1200, after
its expiry, twice in a row. -/
theorem c3_rejection_idempotent_witness :
    authenticate envOk 1200 5 0 [] msg1 [] = (.reverted .messageExpired, []) ∧
    (authenticate envOk 1200 5 0 (authenticate envOk 1200 5 0 [] msg1 []).2 msg1 [])
      = (.reverted .messageExpired, []) :=
  c3_rejection_idempotent envOk 1200 5 0 [] msg1 [] .messageExpired (by decide)

/-- C10: the verdict and the resulting ledger are independent of the
submitting caller (`msg.sender`): the body of `authenticate` never reads
it. -/
theorem c10_caller_independent (env : CryptoEnv) (now chainid c₁ c₂ : Nat)
    (st : Ledger) (m : SiweMessage) (sig : Bytes) :
    authenticate env now chainid c₁ st m sig =
      authenticate env now chainid c₂ st m sig := rfl

/-- C4: the checks run in the fixed order not-yet-valid, expired,
window-too-long, network binding, replay, signature, short-circuiting on
the first failure: each early rejection holds whatever the later
conditions (network, ledger state, signature) look like. -/
theorem c4_check_order (env : CryptoEnv) (now chainid caller : Nat)
    (st : Ledger) (m : SiweMessage) (sig : Bytes) :
    (now < m.issuedAt →
      (authenticate env now chainid caller st m sig).1 = .reverted .messageNotYetValid) ∧
    (m.issuedAt ≤ now → m.expiresAt < now →
      (authenticate env now chainid caller st m sig).1 = .reverted .messageExpired) ∧
    (m.issuedAt ≤ now → now ≤ m.expiresAt →
      MESSAGE_TIMEOUT < m.expiresAt - m.issuedAt →
      (authenticate env now chainid caller st m sig).1 = .reverted .expiryTooLong) ∧
    (m.issuedAt ≤ now → now ≤ m.expiresAt →
      m.expiresAt - m.issuedAt ≤ MESSAGE_TIMEOUT → chainid ≠ m.chainId →
      (authenticate env now chainid caller st m sig).1 = .reverted .invalidChain) ∧
    (m.issuedAt ≤ now → now ≤ m.expiresAt →
      m.expiresAt - m.issuedAt ≤ MESSAGE_TIMEOUT → chainid = m.chainId →
      isMessageUsed st (contentId env m) = true →
      (authenticate env now chainid caller st m sig).1 = .reverted .messageAlreadyUsed) := by
  refine ⟨?_, ?_, ?_, ?_, ?_⟩
  · intro h
    rw [authenticate_fst_eq]
    simp [h]
  · intro h1 h2
    rw [authenticate_fst_eq]
    simp [Nat.not_lt.mpr h1, h2]
  · intro h1 h2 h3
    rw [authenticate_fst_eq]
    simp [Nat.not_lt.mpr h1, Nat.not_lt.mpr h2, h3]
  · intro h1 h2 h3 h4
    rw [authenticate_fst_eq]
    simp [Nat.not_lt.mpr h1, Nat.not_lt.mpr h2, Nat.not_lt.mpr h3, h4]
  · intro h1 h2 h3 h4 h5
    simp only [isMessageUsed] at h5
    rw [authenticate_fst_eq]
    simp [Nat.not_lt.mpr h1, Nat.not_lt.mpr h2, Nat.not_lt.mpr h3, h4, h5]

/-- C4 witness: a not-yet-valid message on the wrong chain is rejected as
not yet valid, and an expired message with an unrecoverable signature is
rejected as expired — the earliest failing check wins. -/
theorem c4_check_order_witness :
    (authenticate envOk 500 6 0 [] msg1 []).1 = .reverted .messageNotYetValid ∧
    (authenticate envNone 1200 5 0 [] msg1 []).1 = .reverted .messageExpired :=
  ⟨(c4_check_order envOk 500 6 0 [] msg1 []).1 (by decide),
   (c4_check_order envNone 1200 5 0 [] msg1 []).2.1 (by decide) (by decide)⟩

/-- C5: the timing gate, with all three bounds inclusive: the call
rejects as not-yet-valid exactly when `now < issuedAt`; once that check
passes, it rejects as expired exactly when `now > expiresAt`; once both
pass, it rejects as window-too-long exactly when
`expiresAt - issuedAt > MESSAGE_TIMEOUT`, where `MESSAGE_TIMEOUT` is 300
seconds. -/
theorem c5_timing_gate (env : CryptoEnv) (now chainid caller : Nat)
    (st : Ledger) (m : SiweMessage) (sig : Bytes) :
    MESSAGE_TIMEOUT = 300 ∧
    ((authenticate env now chainid caller st m sig).1 = .reverted .messageNotYetValid ↔
      now < m.issuedAt) ∧
    (m.issuedAt ≤ now →
      ((authenticate env now chainid caller st m sig).1 = .reverted .messageExpired ↔
        m.expiresAt < now)) ∧
    (m.issuedAt ≤ now → now ≤ m.expiresAt →
      ((authenticate env now chainid caller st m sig).1 = .reverted .expiryTooLong ↔
        MESSAGE_TIMEOUT < m.expiresAt - m.issuedAt)) := by
  refine ⟨rfl, ?_, ?_, ?_⟩
  · rw [authenticate_fst_eq]
    by_cases hc : now < m.issuedAt
    · simp [hc]
    · simp only [if_neg hc]
      constructor
      · intro h
        exfalso
        revert h
        repeat' split
        all_goals simp_all
      · intro h
        exact absurd h hc
  · intro h1
    rw [authenticate_fst_eq, if_neg (Nat.not_lt.mpr h1)]
    by_cases hc : m.expiresAt < now
    · simp [hc]
    · simp only [if_neg hc]
      constructor
      · intro h
        exfalso
        revert h
        repeat' split
        all_goals simp_all
      · intro h
        exact absurd h hc
  · intro h1 h2
    rw [authenticate_fst_eq, if_neg (Nat.not_lt.mpr h1), if_neg (Nat.not_lt.mpr h2)]
    by_cases hc : MESSAGE_TIMEOUT < m.expiresAt - m.issuedAt
    · simp [hc]
    · simp only [if_neg hc]
      constructor
      · intro h
        exfalso
        revert h
        repeat' split
        all_goals simp_all
      · intro h
        exact absurd h hc

/-- C5 witness: `msg1` submitted exactly at `issuedAt` is not rejected as
not-yet-valid, and exactly at `expiresAt` is not rejected as expired —
both bounds are inclusive. -/
theorem c5_timing_gate_witness :
    ¬((authenticate envOk 900 5 0 [] msg1 []).1 = .reverted .messageNotYetValid) ∧
    ¬((authenticate envOk 1100 5 0 [] msg1 []).1 = .reverted .messageExpired) :=
  ⟨fun h => absurd ((c5_timing_gate envOk 900 5 0 [] msg1 []).2.1.mp h) (by decide),
   fun h => absurd
     (((c5_timing_gate envOk 1100 5 0 [] msg1 []).2.2.1 (by decide)).mp h)
     (by decide)⟩

/-- C9: the checked subtraction `expiresAt - issuedAt` never panics: no
call ever surfaces the arithmetic-underflow branch, because the two
timing checks evaluated before it already force
`issuedAt ≤ now ≤ expiresAt`. -/
theorem c9_no_underflow (env : CryptoEnv) (now chainid caller : Nat)
    (st : Ledger) (m : SiweMessage) (sig : Bytes) :
    (authenticate env now chainid caller st m sig).1 ≠ .reverted .arithmeticUnderflow ∧
    (¬ now < m.issuedAt → ¬ m.expiresAt < now → m.issuedAt ≤ m.expiresAt) := by
  constructor
  · rw [authenticate_fst_eq]
    repeat' split
    all_goals simp
  · intro h1 h2
    exact le_trans (Nat.not_lt.mp h1) (Nat.not_lt.mp h2)

/-- C9 witness: concrete evaluation of both conjuncts on `msg1`. -/
theorem c9_no_underflow_witness :
    (authenticate envOk 1000 5 0 [] msg1 []).1 ≠ .reverted .arithmeticUnderflow ∧
    msg1.issuedAt ≤ msg1.expiresAt :=
  ⟨(c9_no_underflow envOk 1000 5 0 [] msg1 []).1,
   (c9_no_underflow envOk 1000 5 0 [] msg1 []).2 (by decide) (by decide)⟩

/-- C2 counterexample: a concrete message passing the timing, network
and replay checks whose signature verification fails is rejected as an
invalid signature, yet its content identifier is NOT marked consumed —
the ledger write the claim asserts does not happen. -/
theorem c2_mark_on_invalid_signature_counterexample :
    (authenticate envWrong 1000 5 0 [] msg1 []).1 = .reverted .invalidSignature ∧
    isMessageUsed (authenticate envWrong 1000 5 0 [] msg1 []).2
      (contentId envWrong msg1) = false := by
  decide

/-- C2 (amended): the replay check does precede signature verification,
but it is a read-only lookup rather than a check-and-mark: a consumed
content identifier is rejected as a replay whatever the signature looks
like (so consumption can be probed without a valid signature), while a
fresh message that fails signature verification — by failed recovery or
by recovered-account mismatch — is rejected with the ledger left
unchanged: its content identifier is not marked consumed. -/
theorem c2_replay_check_before_signature (env : CryptoEnv)
    (now chainid caller : Nat) (st : Ledger) (m : SiweMessage) (sig : Bytes)
    (h1 : m.issuedAt ≤ now) (h2 : now ≤ m.expiresAt)
    (h3 : m.expiresAt - m.issuedAt ≤ MESSAGE_TIMEOUT)
    (h4 : chainid = m.chainId) :
    (isMessageUsed st (contentId env m) = true →
      authenticate env now chainid caller st m sig = (.reverted .messageAlreadyUsed, st)) ∧
    (isMessageUsed st (contentId env m) = false →
      env.ecrecover (ethSignedMessageHash env (contentId env m)) sig = none →
      authenticate env now chainid caller st m sig
        = (.reverted .ecdsaInvalidSignature, st)) ∧
    (isMessageUsed st (contentId env m) = false →
      ∀ s, env.ecrecover (ethSignedMessageHash env (contentId env m)) sig = some s →
        s ≠ m.address_ →
        authenticate env now chainid caller st m sig
          = (.reverted .invalidSignature, st)) := by
  refine ⟨?_, ?_, ?_⟩
  · intro h5
    simp only [isMessageUsed] at h5
    apply authenticate_eq_of_fst_reverted
    rw [authenticate_fst_eq]
    simp [Nat.not_lt.mpr h1, Nat.not_lt.mpr h2, Nat.not_lt.mpr h3, h4, h5]
  · intro h5 h6
    simp only [isMessageUsed] at h5
    apply authenticate_eq_of_fst_reverted
    rw [authenticate_fst_eq]
    simp [Nat.not_lt.mpr h1, Nat.not_lt.mpr h2, Nat.not_lt.mpr h3, h4, h5, h6]
  · intro h5 s h6 h7
    simp only [isMessageUsed] at h5
    apply authenticate_eq_of_fst_reverted
    rw [authenticate_fst_eq]
    simp [Nat.not_lt.mpr h1, Nat.not_lt.mpr h2, Nat.not_lt.mpr h3, h4, h5, h6, h7]

set_option maxRecDepth 20000 in
/-- C2 witness: the consumed-probe and the unchanged-ledger branch, both
at concrete inputs. -/
theorem c2_replay_check_before_signature_witness :
    authenticate envWrong 1000 5 0 [contentId envWrong msg1] msg1 []
      = (.reverted .messageAlreadyUsed, [contentId envWrong msg1]) ∧
    authenticate envWrong 1000 5 0 [] msg1 [] = (.reverted .invalidSignature, []) :=
  ⟨(c2_replay_check_before_signature envWrong 1000 5 0 [contentId envWrong msg1] msg1 []
      (by decide) (by decide) (by decide) rfl).1 (by decide),
   (c2_replay_check_before_signature envWrong 1000 5 0 [] msg1 []
      (by decide) (by decide) (by decide) rfl).2.2 (by decide) 1 rfl (by decide)⟩

/-- C6: the content identifier is deterministic and fixed-size: two
messages with identical field values have byte-identical encodings and
identical content identifiers, and every content identifier fits in 32
bytes; `encodeSiwe` is a total function, so encoding has no error path on
well-typed input. -/
theorem c6_contentId_deterministic (env : CryptoEnv) (m m' : SiweMessage)
    (hdom : m.domain = m'.domain) (hacc : m.address_ = m'.address_)
    (hst : m.statement = m'.statement) (huri : m.uri = m'.uri)
    (hnet : m.chainId = m'.chainId) (hnon : m.nonce = m'.nonce)
    (hiss : m.issuedAt = m'.issuedAt) (hexp : m.expiresAt = m'.expiresAt) :
    encodeSiwe m = encodeSiwe m' ∧
    contentId env m = contentId env m' ∧
    contentId env m < 2 ^ 256 := by
  have hm : m = m' := by
    cases m
    cases m'
    simp_all
  subst hm
  exact ⟨rfl, rfl, env.keccak256_lt _⟩

/-- C6 witness: two separately written records with the same field
values. -/
theorem c6_contentId_deterministic_witness :
    encodeSiwe msg1 = encodeSiwe ⟨[100], 7, [115], [117], 5, 42, 900, 1100⟩ ∧
    contentId envOk msg1 = contentId envOk ⟨[100], 7, [115], [117], 5, 42, 900, 1100⟩ ∧
    contentId envOk msg1 < 2 ^ 256 :=
  c6_contentId_deterministic envOk msg1 ⟨[100], 7, [115], [117], 5, 42, 900, 1100⟩
    rfl rfl rfl rfl rfl rfl rfl rfl

/-- C7 counterexample: a concrete message passing every earlier check
whose signature is malformed (recovery fails) reverts with the `ECDSA`
library's own invalid-signature error, which is a different reason than
the engine's `"Invalid signature"` — the two failure modes are not folded
into a single reason. -/
theorem c7_fold_counterexample :
    (authenticate envNone 1000 5 0 [] msg1 []).1 = .reverted .ecdsaInvalidSignature ∧
    RevertReason.ecdsaInvalidSignature ≠ RevertReason.invalidSignature := by
  decide

/-- C7 (amended): signature validation hashes the personal-message
header concatenated with the 32 content-identifier bytes and recovers
the signer from that digest; once every earlier check has passed, the
call is accepted exactly when the recovered account equals the claimed
account. A recovered-account mismatch is rejected as `"Invalid
signature"`, but a malformed signature is not folded into that reason: it
surfaces as the recovery library's own distinct error. -/
theorem c7_signature_stage (env : CryptoEnv) (now chainid caller : Nat)
    (st : Ledger) (m : SiweMessage) (sig : Bytes)
    (h1 : m.issuedAt ≤ now) (h2 : now ≤ m.expiresAt)
    (h3 : m.expiresAt - m.issuedAt ≤ MESSAGE_TIMEOUT)
    (h4 : chainid = m.chainId)
    (h6 : isMessageUsed st (contentId env m) = false) :
    ethSignedMessageHash env (contentId env m) =
      env.keccak256 (personalMessageHeader ++ wordBytes (contentId env m)) ∧
    ((authenticate env now chainid caller st m sig).1 = .accepted ↔
      env.ecrecover (ethSignedMessageHash env (contentId env m)) sig
        = some m.address_) ∧
    (env.ecrecover (ethSignedMessageHash env (contentId env m)) sig = none →
      (authenticate env now chainid caller st m sig).1
        = .reverted .ecdsaInvalidSignature) ∧
    (∀ s, env.ecrecover (ethSignedMessageHash env (contentId env m)) sig = some s →
      s ≠ m.address_ →
      (authenticate env now chainid caller st m sig).1
        = .reverted .invalidSignature) ∧
    RevertReason.ecdsaInvalidSignature ≠ RevertReason.invalidSignature := by
  simp only [isMessageUsed] at h6
  refine ⟨rfl, ?_, ?_, ?_, by decide⟩
  · rcases hrec : env.ecrecover (ethSignedMessageHash env (contentId env m)) sig with _ | s
    · rw [authenticate_fst_eq]
      simp [Nat.not_lt.mpr h1, Nat.not_lt.mpr h2, Nat.not_lt.mpr h3, h4, h6, hrec]
    · rw [authenticate_fst_eq]
      by_cases hs : s = m.address_
      · simp [Nat.not_lt.mpr h1, Nat.not_lt.mpr h2, Nat.not_lt.mpr h3, h4, h6, hrec, hs]
      · simp [Nat.not_lt.mpr h1, Nat.not_lt.mpr h2, Nat.not_lt.mpr h3, h4, h6, hrec, hs]
  · intro hrec
    rw [authenticate_fst_eq]
    simp [Nat.not_lt.mpr h1, Nat.not_lt.mpr h2, Nat.not_lt.mpr h3, h4, h6, hrec]
  · intro s hrec hs
    rw [authenticate_fst_eq]
    simp [Nat.not_lt.mpr h1, Nat.not_lt.mpr h2, Nat.not_lt.mpr h3, h4, h6, hrec, hs]

/-- C7 witness: with recovery yielding the claimed account 7, the
accept-iff direction produces a concrete acceptance. -/
theorem c7_signature_stage_witness :
    (authenticate envOk 1000 5 0 [] msg1 []).1 = .accepted :=
  ((c7_signature_stage envOk 1000 5 0 [] msg1 []
      (by decide) (by decide) (by decide) rfl (by decide)).2.1).mpr (by decide)

/-- C8: the ledger is monotone: every consumed content identifier stays
consumed across any further `authenticate` call (no operation removes an
entry), and a message whose content identifier is consumed is never
accepted again — at any later time, in particular after its expiry. -/
theorem c8_ledger_monotone (env : CryptoEnv) (now chainid caller : Nat)
    (st : Ledger) (m : SiweMessage) (sig : Bytes) :
    (∀ x, isMessageUsed st x = true →
      isMessageUsed (authenticate env now chainid caller st m sig).2 x = true) ∧
    (isMessageUsed st (contentId env m) = true →
      (authenticate env now chainid caller st m sig).1 ≠ .accepted) := by
  constructor
  · intro x hx
    simp only [isMessageUsed, usedMessages] at hx ⊢
    rw [authenticate_snd_eq]
    split
    · have hx' : x ∈ st := by simpa using hx
      simp [List.contains_cons, hx']
    · exact hx
  · intro h
    simp only [isMessageUsed] at h
    rw [authenticate_fst_eq]
    repeat' split
    all_goals simp_all

set_option maxRecDepth 20000 in
/-- C8 witness: an already-consumed identifier survives a further call,
and a consumed message is not accepted even long after its expiry. -/
theorem c8_ledger_monotone_witness :
    isMessageUsed (authenticate envOk 1000 5 0 [42] msg1 []).2 42 = true ∧
    (authenticate envOk 5000 5 0 [contentId envOk msg1] msg1 []).1 ≠ .accepted :=
  ⟨(c8_ledger_monotone envOk 1000 5 0 [42] msg1 []).1 42 (by decide),
   (c8_ledger_monotone envOk 5000 5 0 [contentId envOk msg1] msg1 []).2 (by decide)⟩

end AuthRegistry
